import Mathlib

/-!
Verification of the ichigo arithmetic expression evaluator (src/main.rs).

The Rust source defines a value type `Val` (five cases), an expression tree
`Exp`, four per-operator type-coercion rule functions, and a recursive
evaluator `eval : Exp -> Option Val`.

Modelling conventions:
- `u64` is modelled as `Nat` with arithmetic taken modulo `2 ^ 64`
  (release-mode wrap-around semantics; the spec leaves overflow behavior
  implementation-defined).  Integer division by zero panics in Rust in every
  build mode; the model makes that trap explicit as a third result case
  `Res.panic`, distinct from the recoverable failure `Res.fail` (Rust `None`).
- `f64` is modelled as the inductive `F64`: an exact rational payload plus
  the IEEE-754 special values `inf`, `negInf`, `nan`.  Rounding, overflow to
  infinity, and negative zero are not modelled (every concrete value in the
  reference scenarios is exactly representable and exactly combined); the
  IEEE behavior of division by zero — the one special-value behavior the
  specification relies on — is modelled faithfully.
-/

namespace Ichigo

/-- Model of an `f64` value: an exact rational, or one of the IEEE-754
special values (positive infinity, negative infinity, not-a-number). -/
inductive F64 where
  | finite : ℚ → F64
  | inf : F64
  | negInf : F64
  | nan : F64
deriving DecidableEq

/-- Model of the Rust cast `u64 as f64` (rounding for values at or above
`2 ^ 53` is not modelled). -/
def F64.ofNat (n : Nat) : F64 := .finite (n : ℚ)

/-- `f64` addition: exact on finite operands, IEEE rules on specials. -/
def F64.add : F64 → F64 → F64
  | .nan, _ => .nan
  | _, .nan => .nan
  | .inf, .negInf => .nan
  | .negInf, .inf => .nan
  | .inf, _ => .inf
  | _, .inf => .inf
  | .negInf, _ => .negInf
  | _, .negInf => .negInf
  | .finite a, .finite b => .finite (a + b)

/-- `f64` subtraction: exact on finite operands, IEEE rules on specials. -/
def F64.sub : F64 → F64 → F64
  | .nan, _ => .nan
  | _, .nan => .nan
  | .inf, .inf => .nan
  | .negInf, .negInf => .nan
  | .inf, _ => .inf
  | _, .inf => .negInf
  | .negInf, _ => .negInf
  | _, .negInf => .inf
  | .finite a, .finite b => .finite (a - b)

/-- `f64` multiplication: exact on finite operands, IEEE rules on specials
(infinity times zero is NaN). -/
def F64.mul : F64 → F64 → F64
  | .nan, _ => .nan
  | _, .nan => .nan
  | .inf, .inf => .inf
  | .inf, .negInf => .negInf
  | .negInf, .inf => .negInf
  | .negInf, .negInf => .inf
  | .inf, .finite b => if 0 < b then .inf else if b < 0 then .negInf else .nan
  | .finite a, .inf => if 0 < a then .inf else if a < 0 then .negInf else .nan
  | .negInf, .finite b => if 0 < b then .negInf else if b < 0 then .inf else .nan
  | .finite a, .negInf => if 0 < a then .negInf else if a < 0 then .inf else .nan
  | .finite a, .finite b => .finite (a * b)

/-- `f64` division: exact on finite operands with a nonzero divisor, IEEE
rules otherwise — a zero divisor yields signed infinity for a nonzero finite
dividend and NaN for a zero dividend (negative zero is not modelled, so the
divisor zero is treated as positive zero). -/
def F64.div : F64 → F64 → F64
  | .nan, _ => .nan
  | _, .nan => .nan
  | .inf, .inf => .nan
  | .inf, .negInf => .nan
  | .negInf, .inf => .nan
  | .negInf, .negInf => .nan
  | .inf, .finite b => if b < 0 then .negInf else .inf
  | .negInf, .finite b => if b < 0 then .inf else .negInf
  | .finite _, .inf => .finite 0
  | .finite _, .negInf => .finite 0
  | .finite a, .finite b =>
    if b = 0 then (if a = 0 then .nan else if 0 < a then .inf else .negInf)
    else .finite (a / b)

/-- `true` exactly on the IEEE special values (infinities and NaN). -/
def F64.special : F64 → Bool
  | .finite _ => false
  | .inf => true
  | .negInf => true
  | .nan => true

/-- The modulus of `u64` arithmetic. -/
def U64 : Nat := 2 ^ 64

/-- Rust `enum Val`: the five runtime value kinds. -/
inductive Val where
  | Boo : Bool → Val
  | Int : Nat → Val
  | Nil : Val
  | Rat : F64 → Val
  | Txt : String → Val
deriving DecidableEq

/-- Rust `enum Exp`: a literal leaf or one of four binary operator nodes. -/
inductive Exp where
  | Var : Val → Exp
  | Add : Exp → Exp → Exp
  | Sub : Exp → Exp → Exp
  | Mul : Exp → Exp → Exp
  | Div : Exp → Exp → Exp

/-- Observable outcome of evaluating (part of) an expression in the Rust
program: `ok v` is `Some(v)`, `fail` is `None` (the recoverable type-mismatch
signal), and `panic` is an uncaught Rust panic (integer division by zero). -/
inductive Res where
  | ok : Val → Res
  | fail : Res
  | panic : Res
deriving DecidableEq

/-- The Rust `?` operator on the outcome of a subexpression: a present value
flows on, `None` returns `None`, and a panic unwinds. -/
def Res.andThen : Res → (Val → Res) → Res
  | .ok v, f => f v
  | .fail, _ => .fail
  | .panic, _ => .panic

/-- Lifts the `Option Val` of `type_checked_var` into the outcome type. -/
def Res.ofOption : Option Val → Res
  | some v => .ok v
  | none => .fail

/-- Rust `type_checked_var`: always succeeds with the value unchanged. -/
def type_checked_var (var : Val) : Option Val := some var

/-- Rust `type_checked_add`. -/
def type_checked_add (val1 val2 : Val) : Res :=
  match val1, val2 with
  | .Int a, .Int b => .ok (.Int ((a + b) % U64))
  | .Int a, .Rat b => .ok (.Rat (F64.add (F64.ofNat a) b))
  | .Rat a, .Int b => .ok (.Rat (F64.add a (F64.ofNat b)))
  | .Rat a, .Rat b => .ok (.Rat (F64.add a b))
  | _, _ => .fail

/-- Rust `type_checked_sub` (u64 subtraction wraps modulo `2 ^ 64`). -/
def type_checked_sub (val1 val2 : Val) : Res :=
  match val1, val2 with
  | .Int a, .Int b => .ok (.Int ((U64 + a - b) % U64))
  | .Int a, .Rat b => .ok (.Rat (F64.sub (F64.ofNat a) b))
  | .Rat a, .Int b => .ok (.Rat (F64.sub a (F64.ofNat b)))
  | .Rat a, .Rat b => .ok (.Rat (F64.sub a b))
  | _, _ => .fail

/-- Rust `type_checked_mul`. -/
def type_checked_mul (val1 val2 : Val) : Res :=
  match val1, val2 with
  | .Int a, .Int b => .ok (.Int ((a * b) % U64))
  | .Int a, .Rat b => .ok (.Rat (F64.mul (F64.ofNat a) b))
  | .Rat a, .Int b => .ok (.Rat (F64.mul a (F64.ofNat b)))
  | .Rat a, .Rat b => .ok (.Rat (F64.mul a b))
  | _, _ => .fail

/-- Rust `type_checked_div`: `u64` division by zero is an uncaught Rust
panic, modelled as `Res.panic`. -/
def type_checked_div (val1 val2 : Val) : Res :=
  match val1, val2 with
  | .Int a, .Int b => if b = 0 then .panic else .ok (.Int (a / b))
  | .Int a, .Rat b => .ok (.Rat (F64.div (F64.ofNat a) b))
  | .Rat a, .Int b => .ok (.Rat (F64.div a (F64.ofNat b)))
  | .Rat a, .Rat b => .ok (.Rat (F64.div a b))
  | _, _ => .fail

/-- Rust `eval`: the recursive interpreter.  Each binary node evaluates its
left child first; `?` short-circuits on `None` and a panic unwinds, so the
right child is reached only when the left child produced a value. -/
def eval : Exp → Res
  | .Var var => Res.ofOption (type_checked_var var)
  | .Add e1 e2 => (eval e1).andThen fun v1 => (eval e2).andThen fun v2 =>
      type_checked_add v1 v2
  | .Sub e1 e2 => (eval e1).andThen fun v1 => (eval e2).andThen fun v2 =>
      type_checked_sub v1 v2
  | .Mul e1 e2 => (eval e1).andThen fun v1 => (eval e2).andThen fun v2 =>
      type_checked_mul v1 v2
  | .Div e1 e2 => (eval e1).andThen fun v1 => (eval e2).andThen fun v2 =>
      type_checked_div v1 v2

/-- `true` exactly on the non-combinable value kinds (Boolean, Absent, Text). -/
def Val.nonNumeric : Val → Bool
  | .Boo _ => true
  | .Nil => true
  | .Txt _ => true
  | .Int _ => false
  | .Rat _ => false

/-- `true` exactly on the combinable value kinds (Integer, Rational). -/
def Val.numeric : Val → Bool
  | .Int _ => true
  | .Rat _ => true
  | _ => false

/-- `true` when an outcome carries a present value (Rust `Some`). -/
def Res.present : Res → Bool
  | .ok _ => true
  | .fail => false
  | .panic => false

/-- Structural size of an expression tree (number of nodes). -/
def Exp.size : Exp → Nat
  | .Var _ => 1
  | .Add e1 e2 => e1.size + e2.size + 1
  | .Sub e1 e2 => e1.size + e2.size + 1
  | .Mul e1 e2 => e1.size + e2.size + 1
  | .Div e1 e2 => e1.size + e2.size + 1

/-- Fuel-indexed evaluator: each recursive call spends one unit of fuel, so
it witnesses that the recursion depth of `eval` is bounded by the structural
size of the tree.  `none` means the fuel ran out. -/
def evalFuel : Nat → Exp → Option Res
  | 0, _ => none
  | _ + 1, .Var var => some (Res.ofOption (type_checked_var var))
  | fuel + 1, .Add e1 e2 =>
    match evalFuel fuel e1 with
    | none => none
    | some .panic => some .panic
    | some .fail => some .fail
    | some (.ok v1) =>
      match evalFuel fuel e2 with
      | none => none
      | some .panic => some .panic
      | some .fail => some .fail
      | some (.ok v2) => some (type_checked_add v1 v2)
  | fuel + 1, .Sub e1 e2 =>
    match evalFuel fuel e1 with
    | none => none
    | some .panic => some .panic
    | some .fail => some .fail
    | some (.ok v1) =>
      match evalFuel fuel e2 with
      | none => none
      | some .panic => some .panic
      | some .fail => some .fail
      | some (.ok v2) => some (type_checked_sub v1 v2)
  | fuel + 1, .Mul e1 e2 =>
    match evalFuel fuel e1 with
    | none => none
    | some .panic => some .panic
    | some .fail => some .fail
    | some (.ok v1) =>
      match evalFuel fuel e2 with
      | none => none
      | some .panic => some .panic
      | some .fail => some .fail
      | some (.ok v2) => some (type_checked_mul v1 v2)
  | fuel + 1, .Div e1 e2 =>
    match evalFuel fuel e1 with
    | none => none
    | some .panic => some .panic
    | some .fail => some .fail
    | some (.ok v1) =>
      match evalFuel fuel e2 with
      | none => none
      | some .panic => some .panic
      | some .fail => some .fail
      | some (.ok v2) => some (type_checked_div v1 v2)

/-- C1: for every operand pair involving at least one Rational and no
Boolean, Absent, or Text operand — the shapes (Integer, Rational),
(Rational, Integer), and (Rational, Rational) — each of the four operator
rule functions returns a present Rational result equal to the floating-point
combination of the operands, an Integer operand being widened to
floating-point first (in either position). -/
theorem rational_pairs_combine (n : Nat) (q r : F64) :
    type_checked_add (.Int n) (.Rat q) = .ok (.Rat (F64.add (F64.ofNat n) q)) ∧
    type_checked_add (.Rat q) (.Int n) = .ok (.Rat (F64.add q (F64.ofNat n))) ∧
    type_checked_add (.Rat q) (.Rat r) = .ok (.Rat (F64.add q r)) ∧
    type_checked_sub (.Int n) (.Rat q) = .ok (.Rat (F64.sub (F64.ofNat n) q)) ∧
    type_checked_sub (.Rat q) (.Int n) = .ok (.Rat (F64.sub q (F64.ofNat n))) ∧
    type_checked_sub (.Rat q) (.Rat r) = .ok (.Rat (F64.sub q r)) ∧
    type_checked_mul (.Int n) (.Rat q) = .ok (.Rat (F64.mul (F64.ofNat n) q)) ∧
    type_checked_mul (.Rat q) (.Int n) = .ok (.Rat (F64.mul q (F64.ofNat n))) ∧
    type_checked_mul (.Rat q) (.Rat r) = .ok (.Rat (F64.mul q r)) ∧
    type_checked_div (.Int n) (.Rat q) = .ok (.Rat (F64.div (F64.ofNat n) q)) ∧
    type_checked_div (.Rat q) (.Int n) = .ok (.Rat (F64.div q (F64.ofNat n))) ∧
    type_checked_div (.Rat q) (.Rat r) = .ok (.Rat (F64.div q r)) :=
  ⟨rfl, rfl, rfl, rfl, rfl, rfl, rfl, rfl, rfl, rfl, rfl, rfl⟩

/-- C2: whenever either operand is Boolean, Absent, or Text (in either
position, or any mix with them), every one of the four operator rule
functions returns the failure signal (`None`), with no distinction among
mismatch reasons. -/
theorem non_numeric_pairs_fail (v w : Val)
    (h : v.nonNumeric = true ∨ w.nonNumeric = true) :
    type_checked_add v w = .fail ∧ type_checked_sub v w = .fail ∧
    type_checked_mul v w = .fail ∧ type_checked_div v w = .fail := by
  cases v <;> cases w <;> simp_all [Val.nonNumeric, type_checked_add,
    type_checked_sub, type_checked_mul, type_checked_div]

theorem non_numeric_pairs_fail_witness :
    type_checked_add (.Boo true) (.Int 1) = .fail ∧
    type_checked_sub (.Boo true) (.Int 1) = .fail ∧
    type_checked_mul (.Boo true) (.Int 1) = .fail ∧
    type_checked_div (.Boo true) (.Int 1) = .fail :=
  non_numeric_pairs_fail (.Boo true) (.Int 1) (Or.inl rfl)

/-- C3 (counterexample): the claim quantifies over every pair of Integer
operands and every one of the four rule functions, but the divide rule
applied to `Int 1` and `Int 0` traps (Rust panics on integer division by
zero) instead of returning a present Integer result. -/
theorem int_div_zero_not_present :
    Res.present (type_checked_div (.Int 1) (.Int 0)) = false ∧
    type_checked_div (.Int 1) (.Int 0) = .panic := by decide

/-- C3 (amended): for every pair of Integer operands, add, subtract, and
multiply return a present Integer result equal to the native unsigned 64-bit
(wrap-around modulo `2 ^ 64`) arithmetic with no widening to floating point,
and divide does likewise (truncating division) whenever the divisor is
nonzero; integer division by zero traps fatally instead. -/
theorem int_pairs_native_arithmetic (a b : Nat) :
    type_checked_add (.Int a) (.Int b) = .ok (.Int ((a + b) % U64)) ∧
    type_checked_sub (.Int a) (.Int b) = .ok (.Int ((U64 + a - b) % U64)) ∧
    type_checked_mul (.Int a) (.Int b) = .ok (.Int ((a * b) % U64)) ∧
    (b ≠ 0 → type_checked_div (.Int a) (.Int b) = .ok (.Int (a / b))) := by
  refine ⟨rfl, rfl, rfl, fun hb => ?_⟩
  simp [type_checked_div, hb]

theorem int_pairs_native_arithmetic_witness :
    type_checked_div (.Int 7) (.Int 2) = .ok (.Int 3) :=
  (int_pairs_native_arithmetic 7 2).2.2.2 (by decide)

/-- C4: if the left child of a binary operator node evaluates to the failure
signal, the node evaluates to the failure signal for every right child
whatsoever — the right child is never evaluated (its own outcome, even a
trap, cannot influence the result). -/
theorem left_failure_short_circuits (e1 e2 : Exp) (h : eval e1 = .fail) :
    eval (.Add e1 e2) = .fail ∧ eval (.Sub e1 e2) = .fail ∧
    eval (.Mul e1 e2) = .fail ∧ eval (.Div e1 e2) = .fail := by
  simp [eval, h, Res.andThen]

theorem left_failure_short_circuits_witness :
    eval (.Add (.Add (.Var (.Boo true)) (.Var (.Int 1)))
      (.Div (.Var (.Int 1)) (.Var (.Int 0)))) = .fail ∧
    eval (.Div (.Var (.Int 1)) (.Var (.Int 0))) = .panic :=
  ⟨(left_failure_short_circuits (.Add (.Var (.Boo true)) (.Var (.Int 1)))
      (.Div (.Var (.Int 1)) (.Var (.Int 0))) (by decide)).1, by decide⟩

/-- C5: integer division by zero is fatal, not recoverable: the divide rule
traps on every Integer dividend with an Integer zero divisor and never
returns the absent-result failure signal there; in particular evaluating
`Div(Var(Int 1), Var(Int 0))` traps, and the trap outcome is distinct from
the recoverable failure signal. -/
theorem int_div_zero_fatal :
    (∀ a : Nat, type_checked_div (.Int a) (.Int 0) = .panic) ∧
    eval (.Div (.Var (.Int 1)) (.Var (.Int 0))) = .panic ∧
    Res.panic ≠ Res.fail :=
  ⟨fun _ => rfl, by decide, by decide⟩

/-- C6: for every Value `v` of any of the five kinds, the literal rule
always succeeds with `v` unchanged, and evaluating the literal node `Var v`
returns `v`. -/
theorem literal_eval_identity (v : Val) :
    type_checked_var v = some v ∧ eval (.Var v) = .ok v :=
  ⟨rfl, rfl⟩

/-- C7: the evaluator terminates on every finite expression tree — any fuel
budget at least the structural size of the tree is enough for the
fuel-indexed evaluator to run to completion (every recursive call is on a
strictly smaller child), and it computes exactly what `eval` computes. -/
theorem eval_fuel_complete (e : Exp) (fuel : Nat) (h : e.size ≤ fuel) :
    evalFuel fuel e = some (eval e) := by
  induction e generalizing fuel with
  | Var v =>
    cases fuel with
    | zero => simp [Exp.size] at h
    | succ n => rfl
  | Add e1 e2 ih1 ih2 =>
    cases fuel with
    | zero => simp [Exp.size] at h
    | succ n =>
      simp only [Exp.size] at h
      simp only [evalFuel, ih1 n (by omega), ih2 n (by omega), eval]
      cases eval e1 <;> cases eval e2 <;> simp [Res.andThen]
  | Sub e1 e2 ih1 ih2 =>
    cases fuel with
    | zero => simp [Exp.size] at h
    | succ n =>
      simp only [Exp.size] at h
      simp only [evalFuel, ih1 n (by omega), ih2 n (by omega), eval]
      cases eval e1 <;> cases eval e2 <;> simp [Res.andThen]
  | Mul e1 e2 ih1 ih2 =>
    cases fuel with
    | zero => simp [Exp.size] at h
    | succ n =>
      simp only [Exp.size] at h
      simp only [evalFuel, ih1 n (by omega), ih2 n (by omega), eval]
      cases eval e1 <;> cases eval e2 <;> simp [Res.andThen]
  | Div e1 e2 ih1 ih2 =>
    cases fuel with
    | zero => simp [Exp.size] at h
    | succ n =>
      simp only [Exp.size] at h
      simp only [evalFuel, ih1 n (by omega), ih2 n (by omega), eval]
      cases eval e1 <;> cases eval e2 <;> simp [Res.andThen]

theorem eval_fuel_complete_witness :
    evalFuel 3 (.Add (.Var (.Int 1)) (.Var (.Int 2))) =
      some (eval (.Add (.Var (.Int 1)) (.Var (.Int 2)))) :=
  eval_fuel_complete (.Add (.Var (.Int 1)) (.Var (.Int 2))) 3 (by decide)

/-- C8: the four concrete reference scenarios of the test harness hold:
adding, subtracting, multiplying, and dividing `Integer 10` by
`Rational 20.0` yield `Rational 30.0`, `Rational -10.0`, `Rational 200.0`,
and `Rational 0.5` respectively. -/
theorem reference_scenarios :
    eval (.Add (.Var (.Int 10)) (.Var (.Rat (.finite 20)))) =
      .ok (.Rat (.finite 30)) ∧
    eval (.Sub (.Var (.Int 10)) (.Var (.Rat (.finite 20)))) =
      .ok (.Rat (.finite (-10))) ∧
    eval (.Mul (.Var (.Int 10)) (.Var (.Rat (.finite 20)))) =
      .ok (.Rat (.finite 200)) ∧
    eval (.Div (.Var (.Int 10)) (.Var (.Rat (.finite 20)))) =
      .ok (.Rat (.finite (1 / 2))) := by
  refine ⟨?_, ?_, ?_, ?_⟩ <;>
  · simp only [eval, Res.andThen, Res.ofOption, type_checked_var,
      type_checked_add, type_checked_sub, type_checked_mul, type_checked_div,
      F64.add, F64.sub, F64.mul, F64.div, F64.ofNat]
    norm_num

/-- C9: floating-point division by zero does not fail — whenever the divide
rule's operand pair involves at least one Rational with a zero divisor (a
Rational zero divisor with an Integer or Rational dividend, or an Integer
zero divisor widened to floating-point under a Rational dividend), the rule
returns a present Rational result, and that result is an IEEE-754 special
value (infinity or NaN) rather than the failure signal. -/
theorem float_div_zero_present (n : Nat) (x : F64) :
    type_checked_div (.Int n) (.Rat (.finite 0)) =
      .ok (.Rat (F64.div (F64.ofNat n) (.finite 0))) ∧
    type_checked_div (.Rat x) (.Rat (.finite 0)) =
      .ok (.Rat (F64.div x (.finite 0))) ∧
    type_checked_div (.Rat x) (.Int 0) =
      .ok (.Rat (F64.div x (F64.ofNat 0))) ∧
    F64.special (F64.div (F64.ofNat n) (.finite 0)) = true ∧
    F64.special (F64.div x (.finite 0)) = true := by
  refine ⟨rfl, rfl, rfl, ?_, ?_⟩
  · simp only [F64.ofNat, F64.div]
    split_ifs <;> simp_all [F64.special]
  · cases x <;> simp only [F64.div, F64.special] <;>
      split_ifs <;> simp_all [F64.special]

/-- Inversion for the `?` operator: a successful chained outcome means the
first step itself succeeded and the continuation succeeded on its value. -/
lemma andThen_ok_inv {r : Res} {f : Val → Res} {v : Val}
    (h : r.andThen f = .ok v) : ∃ w, r = .ok w ∧ f w = .ok v := by
  cases r with
  | ok w => exact ⟨w, rfl, h⟩
  | fail => simp [Res.andThen] at h
  | panic => simp [Res.andThen] at h

/-- A successful `type_checked_add` only ever produces a numeric value. -/
lemma type_checked_add_ok_numeric (a b v : Val)
    (h : type_checked_add a b = .ok v) : v.numeric = true := by
  cases a <;> cases b <;> simp only [type_checked_add] at h <;>
    first
      | exact Res.noConfusion h
      | (rw [Res.ok.injEq] at h; subst h; rfl)

/-- A successful `type_checked_sub` only ever produces a numeric value. -/
lemma type_checked_sub_ok_numeric (a b v : Val)
    (h : type_checked_sub a b = .ok v) : v.numeric = true := by
  cases a <;> cases b <;> simp only [type_checked_sub] at h <;>
    first
      | exact Res.noConfusion h
      | (rw [Res.ok.injEq] at h; subst h; rfl)

/-- A successful `type_checked_mul` only ever produces a numeric value. -/
lemma type_checked_mul_ok_numeric (a b v : Val)
    (h : type_checked_mul a b = .ok v) : v.numeric = true := by
  cases a <;> cases b <;> simp only [type_checked_mul] at h <;>
    first
      | exact Res.noConfusion h
      | (rw [Res.ok.injEq] at h; subst h; rfl)

/-- A successful `type_checked_div` only ever produces a numeric value. -/
lemma type_checked_div_ok_numeric (a b v : Val)
    (h : type_checked_div a b = .ok v) : v.numeric = true := by
  cases a <;> cases b <;> simp only [type_checked_div] at h <;>
    first
      | exact Res.noConfusion h
      | (rw [Res.ok.injEq] at h; subst h; rfl)
      | (split at h <;>
          first
            | exact Res.noConfusion h
            | (rw [Res.ok.injEq] at h; subst h; rfl))

/-- C10: whenever evaluation of a binary operator node succeeds, the
returned Value is of kind Integer or Rational — never Boolean, Absent, or
Text. -/
theorem binary_success_numeric (e1 e2 : Exp) (v : Val)
    (h : eval (.Add e1 e2) = .ok v ∨ eval (.Sub e1 e2) = .ok v ∨
         eval (.Mul e1 e2) = .ok v ∨ eval (.Div e1 e2) = .ok v) :
    v.numeric = true := by
  rcases h with h | h | h | h
  · simp only [eval] at h
    obtain ⟨v1, h1, h⟩ := andThen_ok_inv h
    obtain ⟨v2, h2, h⟩ := andThen_ok_inv h
    exact type_checked_add_ok_numeric v1 v2 v h
  · simp only [eval] at h
    obtain ⟨v1, h1, h⟩ := andThen_ok_inv h
    obtain ⟨v2, h2, h⟩ := andThen_ok_inv h
    exact type_checked_sub_ok_numeric v1 v2 v h
  · simp only [eval] at h
    obtain ⟨v1, h1, h⟩ := andThen_ok_inv h
    obtain ⟨v2, h2, h⟩ := andThen_ok_inv h
    exact type_checked_mul_ok_numeric v1 v2 v h
  · simp only [eval] at h
    obtain ⟨v1, h1, h⟩ := andThen_ok_inv h
    obtain ⟨v2, h2, h⟩ := andThen_ok_inv h
    exact type_checked_div_ok_numeric v1 v2 v h

theorem binary_success_numeric_witness : Val.numeric (.Int 3) = true :=
  binary_success_numeric (.Var (.Int 1)) (.Var (.Int 2)) (.Int 3)
    (Or.inl (by decide))

end Ichigo
